import Mathlib

/-!
Shallow embedding of `mutwo.ext.converters.frontends.isis`
(files `isis.py` and `isis_constants.py`) from the mutwo.isis repository.

Modelling conventions:
* Python dynamic attributes that may be absent on a `SimpleEvent` become
  `Option` fields (`none` = the attribute is missing, so reading it raises
  `AttributeError`).
* Python exceptions become the `PyError` type; fallible code returns
  `Except PyError _`.
* Pitch objects are only ever consulted for `str(pitch.midi_pitch_number)`
  and volume objects only for `str(volume.amplitude)`, so they are embedded
  as the strings those expressions produce.
* Durations are embedded as `Rat` (mutwo durations are fractions / reals;
  `toString` on an integral `Rat` agrees with Python `str` on the integral
  durations appearing here).
* File-system and process effects of `IsisConverter.convert` are embedded
  as an explicit action trace (`FsAction`).
-/

namespace MutwoIsis

/-- Python exceptions that the converter code can raise or observe. -/
inductive PyError where
  | attributeError
  | indexError
  | notImplementedError
  | other (msg : String)
  deriving DecidableEq, Repr

/-- Embeds a pitch object: the converter only reads
`str(pitch.midi_pitch_number)`, kept here as the resulting string. -/
structure Pitch where
  midi_pitch_number : String
  deriving DecidableEq, Repr

/-- Embeds a volume object: the converter only reads
`str(volume.amplitude)`, kept here as the resulting string. -/
structure Volume where
  amplitude : String
  deriving DecidableEq, Repr

/-- Embeds `events.basic.SimpleEvent` together with the optional
attributes the default extraction functions read (`none` = attribute
absent, so an access raises `AttributeError`). -/
structure SimpleEvent where
  duration : Rat
  pitch_list : Option (List Pitch)
  volume : Option Volume
  vowel : Option String
  consonant_tuple : Option (List String)
  deriving DecidableEq, Repr

/-- Replaces the duration of an event, keeping every other attribute
(the effect of `tie_by` accumulating durations onto the first event of a
tied pair). -/
def SimpleEvent.setDuration (e : SimpleEvent) (d : Rat) : SimpleEvent :=
  ⟨d, e.pitch_list, e.volume, e.vowel, e.consonant_tuple⟩

/-- Embeds `ConvertableEventUnion` plus the `SimultaneousEvent` shape that
`_convert_simultaneous_event` rejects. The declared input type is
`SimpleEvent | SequentialEvent[SimpleEvent]`. -/
inductive Event where
  | simple (e : SimpleEvent)
  | sequential (l : List SimpleEvent)
  | simultaneous (l : List Event)

/-- Embeds the `ExtractedDataDict` for one event: keys
duration, consonant_tuple, vowel, pitch, volume. -/
structure ExtractedData where
  duration : Rat
  consonant_tuple : List String
  vowel : String
  pitch : Pitch
  volume : Volume
  deriving DecidableEq, Repr

/-- Embeds `IsisScoreConverter._extracted_data_dict_rest` merged with the
event's duration (`dict(duration=duration, **self._extracted_data_dict_rest)`):
vowel `"_"`, empty consonant tuple, the silent sentinel pitch
`WesternPitch("c", -1, ...)` (midi pitch number `0.0`), volume
`DirectVolume(0)` (amplitude `0`). -/
def extracted_data_dict_rest (duration : Rat) : ExtractedData :=
  ⟨duration, [], "_", ⟨"0.0"⟩, ⟨"0"⟩⟩

/-- Embeds `IsisScoreConverter`: the four extraction functions, the rest
predicate, and the scalar configuration (`tempo`, `global_transposition`). -/
structure IsisScoreConverter where
  simple_event_to_pitch : SimpleEvent → Except PyError Pitch
  simple_event_to_volume : SimpleEvent → Except PyError Volume
  simple_event_to_vowel : SimpleEvent → Except PyError String
  simple_event_to_consonant_tuple : SimpleEvent → Except PyError (List String)
  is_simple_event_rest : SimpleEvent → Bool
  tempo : Rat
  global_transposition : Int

/-- Default pitch extraction: `lambda e: e.pitch_list[0]` — `AttributeError`
when the attribute is absent, `IndexError` when the list is empty. -/
def default_simple_event_to_pitch (e : SimpleEvent) : Except PyError Pitch :=
  match e.pitch_list with
  | none => .error .attributeError
  | some [] => .error .indexError
  | some (p :: _) => .ok p

/-- Default volume extraction: `lambda e: e.volume`. -/
def default_simple_event_to_volume (e : SimpleEvent) : Except PyError Volume :=
  match e.volume with
  | none => .error .attributeError
  | some v => .ok v

/-- Default vowel extraction: `lambda e: e.vowel`. -/
def default_simple_event_to_vowel (e : SimpleEvent) : Except PyError String :=
  match e.vowel with
  | none => .error .attributeError
  | some v => .ok v

/-- Default consonant extraction: `lambda e: e.consonant_tuple`. -/
def default_simple_event_to_consonant_tuple (e : SimpleEvent) :
    Except PyError (List String) :=
  match e.consonant_tuple with
  | none => .error .attributeError
  | some c => .ok c

/-- Default rest predicate:
`lambda e: not (hasattr(e, "pitch_list") and e.pitch_list)` —
true when the attribute is absent or the list is empty (Python truthiness). -/
def default_is_simple_event_rest (e : SimpleEvent) : Bool :=
  match e.pitch_list with
  | none => true
  | some l => l.isEmpty

/-- The converter built by `IsisScoreConverter()` with all defaults
(tempo 60, global transposition 0). -/
def defaultConverter : IsisScoreConverter :=
  ⟨default_simple_event_to_pitch, default_simple_event_to_volume,
   default_simple_event_to_vowel, default_simple_event_to_consonant_tuple,
   default_is_simple_event_rest, 60, 0⟩

/-- Embeds `IsisScoreConverter._convert_simple_event`: the extraction
functions are applied in the fixed `_extraction_function_dict` order
(consonant_tuple, vowel, pitch, volume); the first `AttributeError`
replaces the whole record by the rest record (duration preserved); any
other exception propagates; otherwise the full record is assembled. -/
def IsisScoreConverter.convert_simple_event (c : IsisScoreConverter)
    (e : SimpleEvent) : Except PyError ExtractedData :=
  match c.simple_event_to_consonant_tuple e with
  | .error .attributeError => .ok (extracted_data_dict_rest e.duration)
  | .error err => .error err
  | .ok consonant_tuple =>
    match c.simple_event_to_vowel e with
    | .error .attributeError => .ok (extracted_data_dict_rest e.duration)
    | .error err => .error err
    | .ok vowel =>
      match c.simple_event_to_pitch e with
      | .error .attributeError => .ok (extracted_data_dict_rest e.duration)
      | .error err => .error err
      | .ok pitch =>
        match c.simple_event_to_volume e with
        | .error .attributeError => .ok (extracted_data_dict_rest e.duration)
        | .error err => .error err
        | .ok volume => .ok ⟨e.duration, consonant_tuple, vowel, pitch, volume⟩

/-- Converts the events of a `SequentialEvent` in order, concatenating the
per-event records; the first uncaught exception aborts the walk
(the upstream `EventConverter._convert_event` loop). -/
def IsisScoreConverter.convert_simple_event_list (c : IsisScoreConverter) :
    List SimpleEvent → Except PyError (List ExtractedData)
  | [] => .ok []
  | e :: rest =>
    match c.convert_simple_event e with
    | .error err => .error err
    | .ok d =>
      match c.convert_simple_event_list rest with
      | .error err => .error err
      | .ok ds => .ok (d :: ds)

/-- Embeds the dispatch of the upstream `EventConverter._convert_event`:
a simple event yields its one-record tuple, a sequential event the
concatenation over its children, and a simultaneous event reaches
`_convert_simultaneous_event`, which unconditionally raises
`NotImplementedError`. -/
def IsisScoreConverter.convert_event (c : IsisScoreConverter) :
    Event → Except PyError (List ExtractedData)
  | .simple e =>
    match c.convert_simple_event e with
    | .error err => .error err
    | .ok d => .ok [d]
  | .sequential l => c.convert_simple_event_list l
  | .simultaneous _ => .error .notImplementedError

/-- Modelled from the spec: the rest-merge (tie) pass implemented by the
upstream `SequentialEvent.tie_by` call in `IsisScoreConverter.convert`
(`mutwo.core` is an external collaborator, its code is not in this
repository). Adjacent events that both satisfy the rest predicate are
tied: the first event absorbs the second's duration, and the scan
continues with the merged event, so a whole run of rests collapses into
one event carrying the summed duration. Non-mutating. -/
def tieRests (isRest : SimpleEvent → Bool) : List SimpleEvent → List SimpleEvent
  | [] => []
  | [e] => [e]
  | e0 :: e1 :: rest =>
    if isRest e0 && isRest e1 then
      tieRests isRest (e0.setDuration (e0.duration + e1.duration) :: rest)
    else
      e0 :: tieRests isRest (e1 :: rest)
  termination_by l => l.length

/-- The tie step at the start of `IsisScoreConverter.convert`: `tie_by` is
applied only to `ComplexEvent` inputs; a bare `SimpleEvent` passes through.
A `SimultaneousEvent` keeps its simultaneous shape (its conversion fails
before any child is extracted). -/
def IsisScoreConverter.tiePass (c : IsisScoreConverter) : Event → Event
  | .simple e => .simple e
  | .sequential l => .sequential (tieRests c.is_simple_event_rest l)
  | .simultaneous l => .simultaneous l

/-- Embeds `isis_constants.SECTION_LYRIC_NAME`. -/
def SECTION_LYRIC_NAME : String := "lyrics"

/-- Embeds `isis_constants.SECTION_SCORE_NAME`. -/
def SECTION_SCORE_NAME : String := "score"

/-- Embeds `isis_constants.ISIS_PATH`. -/
def ISIS_PATH : String := "isis.sh"

/-- Embeds `configparser`'s default `optionxform`, which lowercases option
keys when a section dictionary is assigned to the parser. -/
def optionxform (s : String) : String := String.mk (s.data.map Char.toLower)

/-- Embeds the xsampa fragment one extracted record contributes:
`" ".join(extracted_data["consonant_tuple"] + (extracted_data["vowel"],))`. -/
def eventXsampa (d : ExtractedData) : String :=
  String.intercalate " " (d.consonant_tuple ++ [d.vowel])

/-- Embeds `IsisScoreConverter._add_lyric_section`: the lyric section is
the single option `xsampa` holding the space-join of the per-record
fragments. -/
def lyric_section_entries (records : List ExtractedData) : List (String × String) :=
  [(optionxform "xsampa", String.intercalate " " (records.map eventXsampa))]

/-- Embeds `IsisScoreConverter._add_score_section`: insertion order
`globalTransposition`, `tempo`, then the three comma-joined per-record
lists; `configparser` stringifies the values and lowercases the keys. -/
def score_section_entries (c : IsisScoreConverter)
    (records : List ExtractedData) : List (String × String) :=
  [(optionxform "globalTransposition", toString c.global_transposition),
   (optionxform "tempo", toString c.tempo),
   (optionxform "midiNotes",
     String.intercalate ", " (records.map (fun d => d.pitch.midi_pitch_number))),
   (optionxform "rhythm",
     String.intercalate ", " (records.map (fun d => toString d.duration))),
   (optionxform "loud_accents",
     String.intercalate ", " (records.map (fun d => d.volume.amplitude)))]

/-- A configparser option lookup as the repository's own test does it:
the queried key is passed through `optionxform` before matching. -/
def sectionLookup (entries : List (String × String)) (key : String) :
    Option String :=
  (entries.find? (fun kv => kv.1 == optionxform key)).map (fun kv => kv.2)

/-- The two sections of the generated score config file. -/
structure ScoreFile where
  lyric_section : List (String × String)
  score_section : List (String × String)
  deriving DecidableEq, Repr

/-- Embeds `IsisScoreConverter.convert` up to the file write: tie adjacent
rests, extract all records (exceptions propagate), assemble the lyric and
score sections. An `.error` result means the conversion raised before
`open(path, "w")`, so nothing is written. -/
def IsisScoreConverter.convert (c : IsisScoreConverter) (event_to_convert : Event) :
    Except PyError ScoreFile :=
  match c.convert_event (c.tiePass event_to_convert) with
  | .error err => .error err
  | .ok records =>
    .ok ⟨lyric_section_entries records, score_section_entries c records⟩

/-- Embeds `configparser.ConfigParser.write` for one section with the
`":"` delimiter: a `[name]` header, one `key : value` line per option,
and a blank line after the section. -/
def renderSection (name : String) (entries : List (String × String)) : String :=
  "[" ++ name ++ "]\n"
    ++ String.join (entries.map (fun kv => kv.1 ++ " : " ++ kv.2 ++ "\n"))
    ++ "\n"

/-- The full text written to the score file path: lyric section then score
section, in the order they were added to the parser. -/
def renderScoreFile (f : ScoreFile) : String :=
  renderSection SECTION_LYRIC_NAME f.lyric_section
    ++ renderSection SECTION_SCORE_NAME f.score_section

/-- File-system and process effects, in program order. -/
inductive FsAction where
  | writeFile (path : String) (contents : String)
  | runCommand (cmd : String)
  | removeFile (path : String)
  deriving DecidableEq, Repr

/-- Embeds `IsisScoreConverter.convert` as an effect trace: on success it writes
the rendered config text to the given path; on an exception it writes
nothing. -/
def IsisScoreConverter.convertActions (c : IsisScoreConverter)
    (event_to_convert : Event) (path : String) : Except PyError (List FsAction) :=
  match c.convert event_to_convert with
  | .error err => .error err
  | .ok file => .ok [.writeFile path (renderScoreFile file)]

/-- Embeds `IsisConverter`: the score converter, the extra command-line
flags in order, and the `remove_score_file` switch (default `False`). -/
structure IsisConverter where
  isis_score_converter : IsisScoreConverter
  flags : List String
  remove_score_file : Bool

/-- Embeds `IsisConverter.convert`: write the score file to
`f"{path}.isis_score"`, build the command
`f"{ISIS_PATH} -m {score_path} -o {path}"` then append `" {flag} "` for
each flag in order, run it synchronously with `os.system` (its result is
discarded), and `os.remove` the score file only when `remove_score_file`
is set. -/
def IsisConverter.convert (ic : IsisConverter) (event_to_convert : Event)
    (path : String) : Except PyError (List FsAction) :=
  let score_path := path ++ ".isis_score"
  match ic.isis_score_converter.convertActions event_to_convert score_path with
  | .error err => .error err
  | .ok write_actions =>
    let command :=
      ic.flags.foldl (fun cmd flag => cmd ++ " " ++ flag ++ " ")
        (ISIS_PATH ++ " -m " ++ score_path ++ " -o " ++ path)
    .ok (write_actions ++ [FsAction.runCommand command]
      ++ if ic.remove_score_file then [FsAction.removeFile score_path] else [])

/-- Holds exactly when running the four extraction functions in the
fixed order consonant_tuple, vowel, pitch, volume raises an
`AttributeError` before any other exception: the situations in which the
`except AttributeError` clause of `_convert_simple_event` fires. -/
def hitsAttributeError (c : IsisScoreConverter) (e : SimpleEvent) : Bool :=
  match c.simple_event_to_consonant_tuple e with
  | .error .attributeError => true
  | .error _ => false
  | .ok _ =>
    match c.simple_event_to_vowel e with
    | .error .attributeError => true
    | .error _ => false
    | .ok _ =>
      match c.simple_event_to_pitch e with
      | .error .attributeError => true
      | .error _ => false
      | .ok _ =>
        match c.simple_event_to_volume e with
        | .error .attributeError => true
        | .error _ => false
        | .ok _ => false

/-- Written from the spec's words, for comparison with the code's lyric
assembly: for each record emit each consonant token in order followed by
the vowel token. -/
def xsampaTokens (d : ExtractedData) : List String :=
  d.consonant_tuple ++ [d.vowel]

/-- Written from the spec's words, for comparison with the code's lyric
assembly: the `xsampa` value is all tokens of all records in order,
space-joined, with no extra delimiter between record groups. -/
def xsampa_value_spec (records : List ExtractedData) : String :=
  String.intercalate " " ((records.map xsampaTokens).flatten)

/-- Helper for reasoning about `String.intercalate`: each element of the
list prefixed with the separator, all concatenated. -/
def sepPrefixJoin (s : String) : List String → String
  | [] => ""
  | a :: as => s ++ a ++ sepPrefixJoin s as

/-- Helper for reasoning about the flag loop of `IsisConverter.convert`:
the text appended after the base command, `" {flag} "` per flag in order. -/
def flagSuffix : List String → String
  | [] => ""
  | flag :: rest => " " ++ flag ++ " " ++ flagSuffix rest

/-- Holds when no two adjacent events of the list are both classified as
rests: the sequences on which the tie pass has nothing to merge. -/
def noAdjacentRests (isRest : SimpleEvent → Bool) : List SimpleEvent → Bool
  | e0 :: e1 :: rest => !(isRest e0 && isRest e1) && noAdjacentRests isRest (e1 :: rest)
  | _ => true

/-- Example note: duration 2, one pitch (midi number 69), volume with
amplitude 0.5, vowel `a`, consonant tuple `("t",)`. -/
def exampleNote : SimpleEvent :=
  ⟨2, some [⟨"69"⟩], some ⟨"0.5"⟩, some "a", some ["t"]⟩

/-- Example rest: a bare `SimpleEvent(4)` carrying none of the extracted
attributes. -/
def exampleBareRest : SimpleEvent :=
  ⟨4, none, none, none, none⟩

/-- Example rest with an empty pitch list but all other attributes
present (the repository test's `NoteLikeWithText([], 3, 1, tuple([]), "")`). -/
def exampleEmptyPitchListRest : SimpleEvent :=
  ⟨3, some [], some ⟨"1"⟩, some "", some []⟩

/-- An event whose pitch-list attribute exists but is empty while the
consonant, vowel and volume attributes are all present. -/
def exampleEmptyPitchListNote : SimpleEvent :=
  ⟨3, some [], some ⟨"0.5"⟩, some "a", some ["t"]⟩

/-- A concrete `IsisConverter` configuration used to witness the command
construction: two extra flags and score-file removal enabled. -/
def exampleIsisConverter : IsisConverter :=
  ⟨defaultConverter, ["--quiet", "-sv"], true⟩

end MutwoIsis

deriving instance DecidableEq for Except

namespace MutwoIsis

theorem convert_simple_event_list_length (c : IsisScoreConverter) :
    ∀ (l : List SimpleEvent) (records : List ExtractedData),
      c.convert_simple_event_list l = .ok records → records.length = l.length := by
  intro l
  induction l with
  | nil =>
    intro records h
    unfold IsisScoreConverter.convert_simple_event_list at h
    simp only [Except.ok.injEq] at h
    subst h
    rfl
  | cons e rest ih =>
    intro records h
    unfold IsisScoreConverter.convert_simple_event_list at h
    cases hc : c.convert_simple_event e with
    | error err => rw [hc] at h; exact absurd h (by simp)
    | ok d =>
      rw [hc] at h
      cases hr : c.convert_simple_event_list rest with
      | error err => rw [hr] at h; exact absurd h (by simp)
      | ok ds =>
        rw [hr] at h
        simp only [Except.ok.injEq] at h
        subst h
        simp [ih ds hr]

theorem intercalate_go_eq (s : String) (l : List String) :
    ∀ acc, String.intercalate.go acc s l = acc ++ sepPrefixJoin s l := by
  induction l with
  | nil => intro acc; simp [String.intercalate.go, sepPrefixJoin]
  | cons a as ih =>
    intro acc
    rw [String.intercalate.go, ih]
    simp [sepPrefixJoin, String.append_assoc]

theorem intercalate_cons (s a : String) (as : List String) :
    String.intercalate s (a :: as) = a ++ sepPrefixJoin s as :=
  intercalate_go_eq s as a

theorem sepPrefixJoin_append (s : String) (a b : List String) :
    sepPrefixJoin s (a ++ b) = sepPrefixJoin s a ++ sepPrefixJoin s b := by
  induction a with
  | nil => simp [sepPrefixJoin]
  | cons x xs ih => simp [sepPrefixJoin, ih, String.append_assoc]

theorem sep_append_eventXsampa (d : ExtractedData) :
    " " ++ eventXsampa d = sepPrefixJoin " " (xsampaTokens d) := by
  unfold eventXsampa xsampaTokens
  cases d.consonant_tuple with
  | nil => simp [intercalate_cons, sepPrefixJoin]
  | cons c0 cs =>
    simp [List.cons_append, intercalate_cons, sepPrefixJoin, String.append_assoc]

theorem sepPrefixJoin_map_eventXsampa (records : List ExtractedData) :
    sepPrefixJoin " " (records.map eventXsampa)
      = sepPrefixJoin " " ((records.map xsampaTokens).flatten) := by
  induction records with
  | nil => rfl
  | cons d rest ih =>
    show " " ++ eventXsampa d ++ sepPrefixJoin " " (rest.map eventXsampa) = _
    rw [sep_append_eventXsampa d, ih, List.map_cons, List.flatten_cons,
      sepPrefixJoin_append]

theorem intercalate_map_eventXsampa (records : List ExtractedData) :
    String.intercalate " " (records.map eventXsampa) = xsampa_value_spec records := by
  unfold xsampa_value_spec
  cases records with
  | nil => rfl
  | cons d rest =>
    rw [List.map_cons, intercalate_cons, List.map_cons, List.flatten_cons,
      sepPrefixJoin_map_eventXsampa]
    unfold eventXsampa xsampaTokens
    cases d.consonant_tuple with
    | nil =>
      simp [intercalate_cons, sepPrefixJoin, sepPrefixJoin_append, String.append_assoc]
    | cons c0 cs =>
      simp [List.cons_append, intercalate_cons, sepPrefixJoin, sepPrefixJoin_append,
        String.append_assoc]

theorem foldl_flag_eq (flags : List String) :
    ∀ base : String,
      flags.foldl (fun cmd flag => cmd ++ " " ++ flag ++ " ") base
        = base ++ flagSuffix flags := by
  induction flags with
  | nil => intro base; simp [flagSuffix]
  | cons f fs ih =>
    intro base
    rw [List.foldl_cons, ih]
    simp [flagSuffix, String.append_assoc]

/-- Claim C1: if any of the four extraction functions raises a
missing-attribute (`AttributeError`) condition during the run of
`_convert_simple_event`, the entire extracted record is discarded and
replaced by the canonical rest record with the event's duration preserved
(vowel `_`, empty consonant tuple, sentinel pitch, volume 0), the
condition is not surfaced to the caller (the result is `ok`, not
`error`), and no partial record mixing extracted and sentinel fields is
produced. -/
theorem missing_attribute_downgrades_to_rest (c : IsisScoreConverter)
    (e : SimpleEvent) (h : hitsAttributeError c e = true) :
    c.convert_simple_event e = .ok (extracted_data_dict_rest e.duration) := by
  unfold hitsAttributeError at h
  unfold IsisScoreConverter.convert_simple_event
  cases hc : c.simple_event_to_consonant_tuple e with
  | error err => rw [hc] at h; cases err <;> simp_all
  | ok cs =>
    rw [hc] at h
    cases hv : c.simple_event_to_vowel e with
    | error err => rw [hv] at h; cases err <;> simp_all
    | ok vw =>
      rw [hv] at h
      cases hp : c.simple_event_to_pitch e with
      | error err => rw [hp] at h; cases err <;> simp_all
      | ok p =>
        rw [hp] at h
        cases hvol : c.simple_event_to_volume e with
        | error err => rw [hvol] at h; cases err <;> simp_all
        | ok vol => rw [hvol] at h; simp_all

theorem missing_attribute_downgrades_to_rest_witness :
    hitsAttributeError defaultConverter exampleBareRest = true
      ∧ defaultConverter.convert_simple_event exampleBareRest
          = .ok (extracted_data_dict_rest exampleBareRest.duration) :=
  ⟨by decide,
    missing_attribute_downgrades_to_rest defaultConverter exampleBareRest (by decide)⟩

/-- Claim C2 counterexample: `exampleEmptyPitchListNote` has a pitch-list
attribute that is an empty list, so the default rest predicate classifies
it as a rest, yet converting it in isolation does not produce the
canonical rest record: the default pitch getter raises `IndexError`. -/
theorem empty_pitch_list_rest_is_not_converted_to_rest_record :
    default_is_simple_event_rest exampleEmptyPitchListNote = true
      ∧ defaultConverter.convert_simple_event exampleEmptyPitchListNote
          = .error .indexError := by
  exact ⟨by decide, by decide⟩

/-- Claim C2 (amended): with the default extraction functions, every
event with no pitch-list attribute is converted, in isolation and with
its own duration, to the canonical rest record, whose lyric token is
`_`, whose pitch is the silent sentinel (midi pitch number string
`0.0`), and whose volume amplitude string is `0`. -/
theorem no_pitch_list_attribute_yields_rest_record (e : SimpleEvent)
    (h : e.pitch_list = none) :
    defaultConverter.convert_simple_event e = .ok (extracted_data_dict_rest e.duration)
      ∧ eventXsampa (extracted_data_dict_rest e.duration) = "_"
      ∧ (extracted_data_dict_rest e.duration).pitch = ⟨"0.0"⟩
      ∧ (extracted_data_dict_rest e.duration).volume = ⟨"0"⟩ := by
  obtain ⟨d, pl, vol, vw, ct⟩ := e
  simp only [SimpleEvent.pitch_list] at h
  subst h
  refine ⟨?_, rfl, rfl, rfl⟩
  cases ct <;> cases vw <;> rfl

theorem no_pitch_list_attribute_yields_rest_record_witness :
    exampleBareRest.pitch_list = none
      ∧ (defaultConverter.convert_simple_event exampleBareRest
            = .ok (extracted_data_dict_rest exampleBareRest.duration)
          ∧ eventXsampa (extracted_data_dict_rest exampleBareRest.duration) = "_"
          ∧ (extracted_data_dict_rest exampleBareRest.duration).pitch = ⟨"0.0"⟩
          ∧ (extracted_data_dict_rest exampleBareRest.duration).volume = ⟨"0"⟩) :=
  ⟨by decide, no_pitch_list_attribute_yields_rest_record exampleBareRest (by decide)⟩

/-- Claim C3: converting any simultaneous (polyphonic) event raises the
unsupported-polyphonic-input condition (`NotImplementedError`) before any
record is extracted: `IsisScoreConverter.convert` returns the error
rather than a score file, the effect trace of the score conversion
contains no file write, and `IsisConverter.convert` likewise propagates
the error without producing any action. -/
theorem simultaneous_event_raises_not_implemented (c : IsisScoreConverter)
    (ic : IsisConverter) (l : List Event) (path : String) :
    c.convert (.simultaneous l) = .error .notImplementedError
      ∧ c.convertActions (.simultaneous l) path = .error .notImplementedError
      ∧ ic.convert (.simultaneous l) path = .error .notImplementedError :=
  ⟨rfl, rfl, rfl⟩

/-- Claim C4: for a convertible sequential input, the number of per-event
record groups in the lyric value, and the number of elements in each of
the `midiNotes`, `rhythm` and `loud_accents` lists, all equal the number
of events remaining after the rest-merge (tie) pass, and the emitted file
is assembled from exactly these per-record lists. -/
theorem emitted_list_lengths_match_tied_event_count (c : IsisScoreConverter)
    (event_list : List SimpleEvent) (records : List ExtractedData)
    (h : c.convert_simple_event_list (tieRests c.is_simple_event_rest event_list)
      = .ok records) :
    c.convert (.sequential event_list)
        = .ok ⟨lyric_section_entries records, score_section_entries c records⟩
      ∧ (records.map eventXsampa).length
          = (tieRests c.is_simple_event_rest event_list).length
      ∧ (records.map (fun d => d.pitch.midi_pitch_number)).length
          = (tieRests c.is_simple_event_rest event_list).length
      ∧ (records.map (fun d => toString d.duration)).length
          = (tieRests c.is_simple_event_rest event_list).length
      ∧ (records.map (fun d => d.volume.amplitude)).length
          = (tieRests c.is_simple_event_rest event_list).length := by
  have hlen : records.length = (tieRests c.is_simple_event_rest event_list).length :=
    convert_simple_event_list_length c _ records h
  refine ⟨?_, by simpa using hlen, by simpa using hlen, by simpa using hlen,
    by simpa using hlen⟩
  unfold IsisScoreConverter.convert
  show (match c.convert_simple_event_list (tieRests c.is_simple_event_rest event_list)
      with
    | Except.error err => (Except.error err : Except PyError ScoreFile)
    | Except.ok records =>
      Except.ok ⟨lyric_section_entries records, score_section_entries c records⟩)
    = _
  rw [h]

theorem emitted_list_lengths_match_tied_event_count_witness :
    defaultConverter.convert_simple_event_list
        (tieRests defaultConverter.is_simple_event_rest
          [exampleNote, exampleBareRest, exampleNote])
        = .ok [⟨2, ["t"], "a", ⟨"69"⟩, ⟨"0.5"⟩⟩, extracted_data_dict_rest 4,
            ⟨2, ["t"], "a", ⟨"69"⟩, ⟨"0.5"⟩⟩]
      ∧ (defaultConverter.convert (.sequential [exampleNote, exampleBareRest, exampleNote])
            = .ok ⟨lyric_section_entries
                [⟨2, ["t"], "a", ⟨"69"⟩, ⟨"0.5"⟩⟩, extracted_data_dict_rest 4,
                 ⟨2, ["t"], "a", ⟨"69"⟩, ⟨"0.5"⟩⟩],
              score_section_entries defaultConverter
                [⟨2, ["t"], "a", ⟨"69"⟩, ⟨"0.5"⟩⟩, extracted_data_dict_rest 4,
                 ⟨2, ["t"], "a", ⟨"69"⟩, ⟨"0.5"⟩⟩]⟩
          ∧ ([⟨2, ["t"], "a", ⟨"69"⟩, ⟨"0.5"⟩⟩, extracted_data_dict_rest 4,
              (⟨2, ["t"], "a", ⟨"69"⟩, ⟨"0.5"⟩⟩ : ExtractedData)].map eventXsampa).length
              = (tieRests defaultConverter.is_simple_event_rest
                  [exampleNote, exampleBareRest, exampleNote]).length
          ∧ ([⟨2, ["t"], "a", ⟨"69"⟩, ⟨"0.5"⟩⟩, extracted_data_dict_rest 4,
              (⟨2, ["t"], "a", ⟨"69"⟩, ⟨"0.5"⟩⟩ : ExtractedData)].map
                (fun d => d.pitch.midi_pitch_number)).length
              = (tieRests defaultConverter.is_simple_event_rest
                  [exampleNote, exampleBareRest, exampleNote]).length
          ∧ ([⟨2, ["t"], "a", ⟨"69"⟩, ⟨"0.5"⟩⟩, extracted_data_dict_rest 4,
              (⟨2, ["t"], "a", ⟨"69"⟩, ⟨"0.5"⟩⟩ : ExtractedData)].map
                (fun d => toString d.duration)).length
              = (tieRests defaultConverter.is_simple_event_rest
                  [exampleNote, exampleBareRest, exampleNote]).length
          ∧ ([⟨2, ["t"], "a", ⟨"69"⟩, ⟨"0.5"⟩⟩, extracted_data_dict_rest 4,
              (⟨2, ["t"], "a", ⟨"69"⟩, ⟨"0.5"⟩⟩ : ExtractedData)].map
                (fun d => d.volume.amplitude)).length
              = (tieRests defaultConverter.is_simple_event_rest
                  [exampleNote, exampleBareRest, exampleNote]).length) := by
  have htie : tieRests defaultConverter.is_simple_event_rest
      [exampleNote, exampleBareRest, exampleNote]
      = [exampleNote, exampleBareRest, exampleNote] := by
    simp [tieRests, defaultConverter, default_is_simple_event_rest, exampleNote,
      exampleBareRest]
  have h : defaultConverter.convert_simple_event_list
      (tieRests defaultConverter.is_simple_event_rest
        [exampleNote, exampleBareRest, exampleNote])
      = .ok [⟨2, ["t"], "a", ⟨"69"⟩, ⟨"0.5"⟩⟩, extracted_data_dict_rest 4,
          ⟨2, ["t"], "a", ⟨"69"⟩, ⟨"0.5"⟩⟩] := by
    rw [htie]; decide
  exact ⟨h, emitted_list_lengths_match_tied_event_count defaultConverter
    [exampleNote, exampleBareRest, exampleNote] _ h⟩

/-- Claim C5: before extraction, a run of consecutive events all
classified as rests by the (default) rest predicate is merged by the tie
pass into one single event whose duration is the sum of the run's
durations; in particular the sequence note(2), rest(4), rest(3), note(2)
serializes with rhythm `2, 7, 2` and lyrics `t a _ t a`. -/
theorem rest_run_merge_and_serialization_example :
    (∀ (e : SimpleEvent) (rs : List SimpleEvent),
        default_is_simple_event_rest e = true →
        rs.all default_is_simple_event_rest = true →
        tieRests default_is_simple_event_rest (e :: rs)
          = [e.setDuration (e.duration + (rs.map SimpleEvent.duration).sum)])
      ∧ defaultConverter.convert
          (.sequential [exampleNote, exampleBareRest, exampleEmptyPitchListRest,
            exampleNote])
        = .ok ⟨[("xsampa", "t a _ t a")],
            [("globaltransposition", "0"), ("tempo", "60"),
             ("midinotes", "69, 0.0, 69"), ("rhythm", "2, 7, 2"),
             ("loud_accents", "0.5, 0, 0.5")]⟩ := by
  constructor
  · intro e rs
    induction rs generalizing e with
    | nil =>
      intro he _
      rw [tieRests]
      cases e
      simp [SimpleEvent.setDuration]
    | cons r rs' ih =>
      intro he hall
      rw [List.all_cons, Bool.and_eq_true] at hall
      rw [tieRests, if_pos (by simp [he, hall.1])]
      have hrest : default_is_simple_event_rest
          (e.setDuration (e.duration + r.duration)) = true := he
      rw [ih _ hrest hall.2]
      simp [SimpleEvent.setDuration, add_assoc]
  · have htie : tieRests default_is_simple_event_rest
        [exampleNote, exampleBareRest, exampleEmptyPitchListRest, exampleNote]
        = [exampleNote, exampleBareRest.setDuration 7, exampleNote] := by
      simp [tieRests, default_is_simple_event_rest, exampleNote, exampleBareRest,
        exampleEmptyPitchListRest, SimpleEvent.setDuration]
      norm_num
    unfold IsisScoreConverter.convert
    rw [show defaultConverter.tiePass
        (.sequential [exampleNote, exampleBareRest, exampleEmptyPitchListRest,
          exampleNote])
        = Event.sequential [exampleNote, exampleBareRest.setDuration 7, exampleNote]
      from congrArg Event.sequential htie]
    decide

theorem rest_run_merge_witness :
    default_is_simple_event_rest exampleBareRest = true
      ∧ List.all [exampleEmptyPitchListRest] default_is_simple_event_rest = true
      ∧ tieRests default_is_simple_event_rest
          (exampleBareRest :: [exampleEmptyPitchListRest])
          = [exampleBareRest.setDuration
              (exampleBareRest.duration
                + (([exampleEmptyPitchListRest]).map SimpleEvent.duration).sum)] :=
  ⟨by decide, by decide,
    rest_run_merge_and_serialization_example.1 exampleBareRest
      [exampleEmptyPitchListRest] (by decide) (by decide)⟩

/-- Claim C6: the lyrics section consists of the single key `xsampa`
whose value emits, for each record in order, each consonant token in
order followed by the vowel token (a rest contributes just `_`), all
space-joined with no extra delimiter between record groups; a single
event with consonants `("t",)` and vowel `a` yields the value `t a`. -/
theorem lyric_section_is_flat_space_join :
    (∀ records : List ExtractedData,
        lyric_section_entries records = [("xsampa", xsampa_value_spec records)])
      ∧ (defaultConverter.convert (.simple exampleNote)).map ScoreFile.lyric_section
          = .ok [("xsampa", "t a")] := by
  constructor
  · intro records
    unfold lyric_section_entries
    rw [show optionxform "xsampa" = "xsampa" from by decide,
      intercalate_map_eventXsampa]
  · decide

/-- Claim C7: the emitted score section holds exactly the five options
`globalTransposition`, `tempo`, `midiNotes`, `rhythm` and `loud_accents`
(in configparser's canonical lowercased spelling, matched
case-insensitively by configparser readers), the written tempo and
global-transposition values are the converter's configured inputs
unmodified, the three list values are comma-and-space-joined with one
entry per record, and the key/value delimiter in the emitted text is a
colon. -/
theorem score_section_layout_and_delimiter (c : IsisScoreConverter)
    (records : List ExtractedData) :
    (score_section_entries c records).map Prod.fst
        = ["globaltransposition", "tempo", "midinotes", "rhythm", "loud_accents"]
      ∧ sectionLookup (score_section_entries c records) "globalTransposition"
          = some (toString c.global_transposition)
      ∧ sectionLookup (score_section_entries c records) "tempo"
          = some (toString c.tempo)
      ∧ sectionLookup (score_section_entries c records) "midiNotes"
          = some (String.intercalate ", "
              (records.map (fun d => d.pitch.midi_pitch_number)))
      ∧ sectionLookup (score_section_entries c records) "rhythm"
          = some (String.intercalate ", " (records.map (fun d => toString d.duration)))
      ∧ sectionLookup (score_section_entries c records) "loud_accents"
          = some (String.intercalate ", " (records.map (fun d => d.volume.amplitude)))
      ∧ renderSection SECTION_SCORE_NAME (score_section_entries c records)
          = "[score]\nglobaltransposition : " ++ toString c.global_transposition
            ++ "\ntempo : " ++ toString c.tempo
            ++ "\nmidinotes : "
            ++ String.intercalate ", " (records.map (fun d => d.pitch.midi_pitch_number))
            ++ "\nrhythm : "
            ++ String.intercalate ", " (records.map (fun d => toString d.duration))
            ++ "\nloud_accents : "
            ++ String.intercalate ", " (records.map (fun d => d.volume.amplitude))
            ++ "\n\n" := by
  refine ⟨?_, ?_, ?_, ?_, ?_, ?_, ?_⟩
  · simp [score_section_entries, optionxform]
  · simp [sectionLookup, score_section_entries, optionxform, List.find?]
  · simp [sectionLookup, score_section_entries, optionxform, List.find?]
  · simp [sectionLookup, score_section_entries, optionxform, List.find?]
  · simp [sectionLookup, score_section_entries, optionxform, List.find?]
  · simp [sectionLookup, score_section_entries, optionxform, List.find?]
  · refine String.ext ?_
    simp [renderSection, score_section_entries, SECTION_SCORE_NAME, optionxform,
      String.join, String.data_append]

/-- Claim C8: for every convertible event and destination path,
`IsisConverter.convert` (1) writes the score file to the destination path
extended with the fixed `.isis_score` suffix, (2) builds a command line
invoking the configured binary (`ISIS_PATH`) with `-m <score_file_path>
-o <path>` followed by every caller-configured extra flag in order,
(3) runs it as the next sequential action (the model's trace is
synchronous and its result is never inspected), and (4) removes the
intermediate score file afterwards if and only if `remove_score_file` is
configured true. -/
theorem isis_converter_command_and_cleanup (ic : IsisConverter) (ev : Event)
    (path : String) (file : ScoreFile)
    (h : ic.isis_score_converter.convert ev = .ok file) :
    ic.convert ev path
      = .ok ([FsAction.writeFile (path ++ ".isis_score") (renderScoreFile file),
              FsAction.runCommand (ISIS_PATH ++ " -m " ++ (path ++ ".isis_score")
                ++ " -o " ++ path ++ flagSuffix ic.flags)]
          ++ if ic.remove_score_file then
              [FsAction.removeFile (path ++ ".isis_score")]
            else []) := by
  unfold IsisConverter.convert IsisScoreConverter.convertActions
  rw [h]
  show Except.ok ([FsAction.writeFile (path ++ ".isis_score") (renderScoreFile file)]
      ++ [FsAction.runCommand (List.foldl (fun cmd flag => cmd ++ " " ++ flag ++ " ")
          (ISIS_PATH ++ " -m " ++ (path ++ ".isis_score") ++ " -o " ++ path) ic.flags)]
      ++ if ic.remove_score_file then
          [FsAction.removeFile (path ++ ".isis_score")]
        else [])
    = _
  rw [foldl_flag_eq]
  simp [String.append_assoc]

theorem isis_converter_command_and_cleanup_witness :
    exampleIsisConverter.isis_score_converter.convert (.simple exampleBareRest)
        = .ok ⟨[("xsampa", "_")],
            [("globaltransposition", "0"), ("tempo", "60"), ("midinotes", "0.0"),
             ("rhythm", "4"), ("loud_accents", "0")]⟩
      ∧ exampleIsisConverter.convert (.simple exampleBareRest) "out.wav"
          = .ok ([FsAction.writeFile ("out.wav" ++ ".isis_score")
                  (renderScoreFile ⟨[("xsampa", "_")],
                    [("globaltransposition", "0"), ("tempo", "60"),
                     ("midinotes", "0.0"), ("rhythm", "4"), ("loud_accents", "0")]⟩),
                FsAction.runCommand (ISIS_PATH ++ " -m " ++ ("out.wav" ++ ".isis_score")
                  ++ " -o " ++ "out.wav" ++ flagSuffix exampleIsisConverter.flags)]
              ++ if exampleIsisConverter.remove_score_file then
                  [FsAction.removeFile ("out.wav" ++ ".isis_score")]
                else []) :=
  ⟨by decide,
    isis_converter_command_and_cleanup exampleIsisConverter (.simple exampleBareRest)
      "out.wav"
      ⟨[("xsampa", "_")],
        [("globaltransposition", "0"), ("tempo", "60"), ("midinotes", "0.0"),
         ("rhythm", "4"), ("loud_accents", "0")]⟩ (by decide)⟩

/-- Claim C9: the rest-merge pass is idempotent: on a sequence with no
two adjacent rest-classified events — exactly the shape of its own
output — the tie pass returns the identical sequence. -/
theorem tie_pass_identity_on_merged_sequences (isRest : SimpleEvent → Bool)
    (l : List SimpleEvent) (h : noAdjacentRests isRest l = true) :
    tieRests isRest l = l := by
  induction l with
  | nil => simp [tieRests]
  | cons e0 rest ih =>
    cases rest with
    | nil => simp [tieRests]
    | cons e1 rest' =>
      rw [noAdjacentRests, Bool.and_eq_true] at h
      have hcond : ¬((isRest e0 && isRest e1) = true) := by
        intro hcontra
        rw [hcontra] at h
        simp at h
      rw [tieRests, if_neg hcond, ih h.2]

theorem tie_pass_identity_witness :
    noAdjacentRests default_is_simple_event_rest
        [exampleNote, exampleBareRest, exampleNote] = true
      ∧ tieRests default_is_simple_event_rest
          [exampleNote, exampleBareRest, exampleNote]
          = [exampleNote, exampleBareRest, exampleNote] :=
  ⟨by decide,
    tie_pass_identity_on_merged_sequences default_is_simple_event_rest
      [exampleNote, exampleBareRest, exampleNote] (by decide)⟩

/-- Claim C10: the rest-sentinel fallback fires exactly on
`AttributeError`: an exception of any other kind raised by whichever
extraction function runs first propagates unchanged to the caller; in
particular, with the default extraction functions, a standalone event
whose pitch-list attribute exists but is an empty list (its consonant,
vowel and volume attributes present) makes the default pitch getter
raise `IndexError`, which escapes `convert` instead of producing the
rest sentinel. -/
theorem non_attribute_errors_propagate :
    (∀ (c : IsisScoreConverter) (e : SimpleEvent) (err : PyError),
        err ≠ .attributeError →
        (c.simple_event_to_consonant_tuple e = .error err →
            c.convert_simple_event e = .error err)
          ∧ (∀ cs, c.simple_event_to_consonant_tuple e = .ok cs →
              c.simple_event_to_vowel e = .error err →
              c.convert_simple_event e = .error err)
          ∧ (∀ cs vw, c.simple_event_to_consonant_tuple e = .ok cs →
              c.simple_event_to_vowel e = .ok vw →
              c.simple_event_to_pitch e = .error err →
              c.convert_simple_event e = .error err)
          ∧ (∀ cs vw p, c.simple_event_to_consonant_tuple e = .ok cs →
              c.simple_event_to_vowel e = .ok vw →
              c.simple_event_to_pitch e = .ok p →
              c.simple_event_to_volume e = .error err →
              c.convert_simple_event e = .error err))
      ∧ defaultConverter.convert_simple_event exampleEmptyPitchListNote
          = .error .indexError
      ∧ defaultConverter.convert (.simple exampleEmptyPitchListNote)
          = .error .indexError := by
  refine ⟨?_, by decide, by decide⟩
  intro c e err hne
  refine ⟨?_, ?_, ?_, ?_⟩
  · intro h1
    unfold IsisScoreConverter.convert_simple_event
    rw [h1]
    cases err <;> first | rfl | exact absurd rfl hne
  · intro cs h1 h2
    unfold IsisScoreConverter.convert_simple_event
    rw [h1, h2]
    cases err <;> first | rfl | exact absurd rfl hne
  · intro cs vw h1 h2 h3
    unfold IsisScoreConverter.convert_simple_event
    rw [h1, h2, h3]
    cases err <;> first | rfl | exact absurd rfl hne
  · intro cs vw p h1 h2 h3 h4
    unfold IsisScoreConverter.convert_simple_event
    rw [h1, h2, h3, h4]
    cases err <;> first | rfl | exact absurd rfl hne

theorem non_attribute_errors_propagate_witness :
    (PyError.indexError ≠ PyError.attributeError)
      ∧ defaultConverter.simple_event_to_consonant_tuple exampleEmptyPitchListNote
          = .ok ["t"]
      ∧ defaultConverter.simple_event_to_vowel exampleEmptyPitchListNote = .ok "a"
      ∧ defaultConverter.simple_event_to_pitch exampleEmptyPitchListNote
          = .error .indexError
      ∧ defaultConverter.convert_simple_event exampleEmptyPitchListNote
          = .error .indexError :=
  ⟨by decide, by decide, by decide, by decide,
    (non_attribute_errors_propagate.1 defaultConverter exampleEmptyPitchListNote
      .indexError (by decide)).2.2.1 ["t"] "a" (by decide) (by decide) (by decide)⟩

end MutwoIsis
